import Mathlib

/-!
Verification development for the langgraph research-assistant service.

Shallow embedding of the TypeScript sources:
  src/agent/llama_guard.ts        safety classifier (LlamaGuard wrapper)
  src/agent/research_assistant.ts agent state-machine graph
  src/schema/schema.ts            wire message shapes
  src/service/service.ts          HTTP service helpers and streaming generator

External collaborators (the Groq/OpenAI chat clients, the tool
implementations, the langgraph event stream) are modelled as oracle
functions supplied through an `Env` record; everything the repository
itself computes is translated directly from the source.
-/

deriving instance DecidableEq for Except

/-! ## Message content (JS `string | (string | record)[]`)

A LangChain message `content` is either a plain string or an array whose
items are strings or records carrying a `type` tag (and, for text items,
a `text` payload). -/

/-- One item of an array-shaped message content: a bare string or a record
with a `type` field and a `text` field. -/
inductive ContentItem
  | str (s : String)
  | obj (ty : String) (text : String)
deriving DecidableEq, Repr

/-- A message content: JS `string | (string | record)[]`. -/
inductive MessageContent
  | str (s : String)
  | arr (items : List ContentItem)
deriving DecidableEq, Repr

/-- JS template-literal stringification of a content value: a string is
itself; an array stringifies item-wise (objects become "[object Object]")
joined by ",". Used where the source interpolates a content into a
template string. -/
def jsStringOfContent : MessageContent → String
  | .str s => s
  | .arr items =>
    String.intercalate "," (items.map (fun it =>
      match it with
      | .str s => s
      | .obj _ _ => "[object Object]"))

/-- schema.ts `convertMessageContentToString`: a string content is
returned as is; for an array, the string items and the `text` of items
with `type === "text"` are concatenated. -/
def convertMessageContentToString : MessageContent → String
  | .str s => s
  | .arr items =>
    String.join (items.filterMap (fun it =>
      match it with
      | .str s => some s
      | .obj ty text => if ty = "text" then some text else none))

/-! ## Messages -/

/-- A tool call requested by an assistant message: `{name, args, id}`.
The JSON argument object is kept opaque as a string. -/
structure ToolCall where
  name : String
  args : String
  id : String
deriving DecidableEq, Repr

/-- The LangChain message classes that occur in this program:
HumanMessage, AIMessage / AIMessageChunk (merged: the code treats them
identically), ToolMessage, SystemMessage. -/
inductive BaseMessage
  | human (content : MessageContent)
  | ai (content : MessageContent) (tool_calls : List ToolCall)
  | tool (content : MessageContent) (tool_call_id : String)
  | system (content : MessageContent)
deriving DecidableEq, Repr

/-- The `content` property of a message. -/
def BaseMessage.content : BaseMessage → MessageContent
  | .human c => c
  | .ai c _ => c
  | .tool c _ => c
  | .system c => c

/-- Source `message.getType()`: the runtime type tag of a message. -/
def BaseMessage.getType : BaseMessage → String
  | .human _ => "human"
  | .ai _ _ => "ai"
  | .tool _ _ => "tool"
  | .system _ => "system"

/-- Source `message.constructor.name`, as used in modelCondition error text. -/
def BaseMessage.constructorName : BaseMessage → String
  | .human _ => "HumanMessage"
  | .ai _ _ => "AIMessage"
  | .tool _ _ => "ToolMessage"
  | .system _ => "SystemMessage"

/-! ## llama_guard.ts -/

/-- Source `SafetyAssessment = "SAFE" | "UNSAFE" | "ERROR"`. -/
inductive SafetyAssessment
  | SAFE
  | UNSAFE
  | ERROR
deriving DecidableEq, Repr

/-- Source `LlamaGuardOutput`. The TS type declares `unsafe_categories: string[]`,
but at runtime an unmapped category code puts `undefined` into the array
(JS object indexing on a missing key): the entries are therefore modelled
as `Option String`, with `none` standing for `undefined`. -/
structure LlamaGuardOutput where
  safety_assessment : SafetyAssessment
  unsafe_categories : List (Option String)
deriving DecidableEq, Repr

/-- The fixed `unsafeContentCategories` record, in declaration order
(JS `Object.entries` iterates string keys in insertion order). -/
def unsafeContentCategoriesList : List (String × String) :=
  [("S1", "Violent Crimes"),
   ("S2", "Non-Violent Crimes"),
   ("S3", "Sex Crimes"),
   ("S4", "Child Exploitation"),
   ("S5", "Defamation"),
   ("S6", "Specialized Advice"),
   ("S7", "Privacy"),
   ("S8", "Intellectual Property"),
   ("S9", "Indiscriminate Weapons"),
   ("S10", "Hate"),
   ("S11", "Self-Harm"),
   ("S12", "Sexual Content"),
   ("S13", "Elections"),
   ("S14", "Code Interpreter Abuse")]

/-- JS indexing `unsafeContentCategories[code]`: the label when the key
is present, `undefined` (`none`) otherwise. -/
def unsafeContentCategories (code : String) : Option String :=
  (unsafeContentCategoriesList.find? (fun p => p.1 = code)).map (fun p => p.2)

/-- Source `categoriesStr`: the category table rendered one `code: label` line
per entry. -/
def categoriesStr : String :=
  String.intercalate "\n"
    (unsafeContentCategoriesList.map (fun p => p.1 ++ ": " ++ p.2))

/-- The `llamaGuardInstructions` template literal (braces written with
escapes). Note the `\x7brole\x7d` placeholder occurs twice. -/
def llamaGuardInstructions : String :=
  "\nTask: Check if there is unsafe content in \x27\x7brole\x7d\x27 messages in conversations according to our safety policy with the below categories.\n\n<BEGIN UNSAFE CONTENT CATEGORIES>\n"
  ++ categoriesStr ++
  "\n<END UNSAFE CONTENT CATEGORIES>\n\n<BEGIN CONVERSATION>\n\n\x7bconversation_history\x7d\n\n<END CONVERSATION>\n\nProvide your safety assessment for ONLY THE LAST \x7brole\x7d in the above conversation:\n- First line must read \x27safe\x27 or \x27unsafe\x27.\n- If unsafe, a second line must include a comma-separated list of violated categories."

/-- JS `String.prototype.split` on a single-character separator, on the
underlying character list. `[] ↦ [[]]` so that `"".split(sep) = [""]`,
as in JS. -/
def splitCharList (sep : Char) : List Char → List (List Char)
  | [] => [[]]
  | c :: rest =>
    let r := splitCharList sep rest
    if c = sep then [] :: r
    else
      match r with
      | [] => [[c]]
      | g :: gs => (c :: g) :: gs

/-- JS `s.split(sep)` for a one-character separator string (the source
only splits on `"\n"` and `","`). -/
def jsSplit (sep : Char) (s : String) : List String :=
  (splitCharList sep s.toList).map (fun cs => String.mk cs)

/-- JS `String.prototype.trim`: strip leading and trailing whitespace. -/
def jsTrim (s : String) : String :=
  String.mk (((s.toList.dropWhile Char.isWhitespace).reverse.dropWhile Char.isWhitespace).reverse)

/-- JS `String.prototype.replace` with a string pattern replaces only the
FIRST occurrence. -/
def replaceFirst (s pat sub : String) : String :=
  match s.splitOn pat with
  | [] => s
  | [x] => x
  | x :: rest => x ++ sub ++ String.intercalate pat rest

/-- Source `roleMapping = { ai: "Agent", human: "User" }` (JS lookup, missing
key gives `undefined`). -/
def roleMapping (ty : String) : Option String :=
  if ty = "ai" then some "Agent" else if ty = "human" then some "User" else none

/-- Source `LlamaGuard.compilePrompt`: keep only human/ai messages, render each
as `Label: content`, join with blank lines, and substitute into the
instruction template (first occurrence only, per JS `replace`). -/
def compilePrompt (role : String) (messages : List BaseMessage) : String :=
  let messagesStr :=
    String.intercalate "\n\n"
      ((messages.filter (fun m => m.getType = "ai" ∨ m.getType = "human")).map
        (fun m => ((roleMapping m.getType).getD "undefined") ++ ": " ++ jsStringOfContent m.content))
  replaceFirst (replaceFirst llamaGuardInstructions "\x7brole\x7d" role)
    "\x7bconversation_history\x7d" messagesStr

/-- Source `LlamaGuard.parseLlamaGuardOutput`. The source tests
`output === "safe"` first (the WHOLE string, not the first line), then
splits on newlines and requires exactly two lines with first line
`"unsafe"` (`parsed.length !== 2 || parsed[0] !== "unsafe"` yields
ERROR); the second line is split on commas and each trimmed code is
looked up in the category record. The lookup of an unknown code yields
`undefined` (`none`) — the surrounding try/catch in the source is dead
code, since nothing in the mapping throws. -/
def parseLlamaGuardOutput (output : String) : LlamaGuardOutput :=
  if output = "safe" then
    { safety_assessment := .SAFE, unsafe_categories := [] }
  else
    match jsSplit '\n' output with
    | [l1, l2] =>
      if l1 = "unsafe" then
        { safety_assessment := .UNSAFE,
          unsafe_categories := (jsSplit ',' l2).map (fun c => unsafeContentCategories (jsTrim c)) }
      else { safety_assessment := .ERROR, unsafe_categories := [] }
    | _ => { safety_assessment := .ERROR, unsafe_categories := [] }

/-- The `LlamaGuard` wrapper. `model` is `null` when `GROQ_API_KEY` is
unset; when configured, the ChatGroq client is modelled as an oracle from
the compiled prompt to the raw completion text. -/
structure LlamaGuard where
  model : Option (String → String)

/-- Source `LlamaGuard.invoke`: fail-open to SAFE when unconfigured, otherwise
compile the prompt, call the model once and parse its output. -/
def LlamaGuard.invoke (g : LlamaGuard) (role : String) (messages : List BaseMessage) :
    LlamaGuardOutput :=
  match g.model with
  | none => { safety_assessment := .SAFE, unsafe_categories := [] }
  | some m => parseLlamaGuardOutput (m (compilePrompt role messages))

/-- Number of classification requests a single `invoke` sends: one when a
model is configured (`this.model.invoke` is called exactly once), zero
when unconfigured (the early return). -/
def LlamaGuard.requestsPerInvoke (g : LlamaGuard) : Nat :=
  match g.model with
  | none => 0
  | some _ => 1

example : parseLlamaGuardOutput "safe" = { safety_assessment := .SAFE, unsafe_categories := [] } := by decide
example : parseLlamaGuardOutput "unsafe\nS1,S10" =
    { safety_assessment := .UNSAFE, unsafe_categories := [some "Violent Crimes", some "Hate"] } := by decide
example : parseLlamaGuardOutput "unsafe\nS99" =
    { safety_assessment := .UNSAFE, unsafe_categories := [none] } := by decide
example : parseLlamaGuardOutput "safe\nextra" =
    { safety_assessment := .ERROR, unsafe_categories := [] } := by decide

/-! ## schema.ts and request parsing (service.ts) -/

/-- Wire message discriminant: `"human" | "ai" | "tool"`. -/
inductive ChatType
  | human
  | ai
  | tool
deriving DecidableEq, Repr

/-- Source `ChatMessage` (schema.ts). The `original` field (the raw provider
dict, unused by any logic here) is omitted. -/
structure ChatMessage where
  type : ChatType
  content : String
  tool_calls : List ToolCall
  tool_call_id : Option String
  run_id : Option String
deriving DecidableEq, Repr

/-- Source `ChatMessage.fromLangChain`: dispatch on the runtime message class;
an unsupported class (here: SystemMessage) throws. -/
def ChatMessage.fromLangChain : BaseMessage → Except String ChatMessage
  | .human c =>
    .ok { type := .human, content := convertMessageContentToString c,
          tool_calls := [], tool_call_id := none, run_id := none }
  | .ai c tcs =>
    .ok { type := .ai, content := convertMessageContentToString c,
          tool_calls := tcs, tool_call_id := none, run_id := none }
  | .tool c tcid =>
    .ok { type := .tool, content := convertMessageContentToString c,
          tool_calls := [], tool_call_id := some tcid, run_id := none }
  | .system _ => .error "Unsupported message type: SystemMessage"

/-- Source `UserInput` request body. -/
structure UserInput where
  message : String
  model : Option String
  thread_id : Option String
deriving DecidableEq, Repr

/-- Source `StreamInput` request body (`UserInput` plus `stream_tokens`). -/
structure StreamInput where
  message : String
  model : Option String
  thread_id : Option String
  stream_tokens : Bool
deriving DecidableEq, Repr

/-- The parts of the langgraph `RunnableConfig` the source populates:
`configurable.thread_id`, `configurable.model`, `runId`. -/
structure RunnableConfig where
  thread_id : String
  model : String
  runId : String
deriving DecidableEq, Repr

/-- JS `a || b` on an optional string: absent AND empty string are falsy
and fall through to the default. -/
def jsOrDefault (o : Option String) (dflt : String) : String :=
  match o with
  | none => dflt
  | some s => if s = "" then dflt else s

/-- The `kwargs` built by `parseInput`: the graph input (one new human
message) and the run config. -/
structure Kwargs where
  input_messages : List BaseMessage
  config : RunnableConfig
deriving DecidableEq, Repr

/-- service.ts `parseInput`. The fresh UUIDs (`uuidv4()`) are passed in
as parameters `runId` and `freshThreadId`. -/
def parseInput (runId freshThreadId : String) (u : UserInput) : Kwargs :=
  { input_messages := [.human (.str u.message)],
    config := { thread_id := jsOrDefault u.thread_id freshThreadId,
                model := jsOrDefault u.model "gpt-4",
                runId := runId } }

/-! ## research_assistant.ts — the agent graph -/

/-- The `instructions` system-prompt template; `currentDate` is computed
at module load and passed in here. -/
def instructions (currentDate : String) : String :=
  "\nYou are a helpful research assistant with the ability to search the web and use other tools.\nToday\x27s date is "
  ++ currentDate ++
  ".\n\nNOTE: THE USER CAN\x27T SEE THE TOOL RESPONSE.\n\nA few things to remember:\n- Please include markdown-formatted links to any citations used in your response. Only include one\nor two citations per response unless more are needed. ONLY USE LINKS RETURNED BY THE TOOLS.\n- Use calculator tool with numexpr to answer math questions. The user does not understand numexpr,\n  so for the final response, use human readable format - e.g. \"300 * 200\", not \"(300 \\times 200)\".\n"

/-- The graph state (`GraphAnnotation`): `messages` with concatenation
reducer, `safety` overwritten by each screening step (absent before the
first one). The declared-but-never-assigned `is_last_step` annotation is
omitted. -/
structure AgentState where
  messages : List BaseMessage
  safety : Option LlamaGuardOutput
deriving DecidableEq, Repr

/-- The external collaborators of one run, passed as oracles:
`guard` is the module-level `llamaGuard`; `chatOf name` is the chat
client registered under `name` in the `models` record, with the tools
already bound (`bindTools`), mapping the prompt messages to the response
content and tool calls (its TS return type guarantees an assistant
message); `toolExec` is the ToolNode dispatch producing one result
content per tool call; `currentDate` feeds the instructions template. -/
structure Env where
  guard : LlamaGuard
  chatOf : String → List BaseMessage → MessageContent × List ToolCall
  toolExec : ToolCall → MessageContent
  currentDate : String

/-- JS `array.join(", ")` over the categories array: `undefined` entries
render as the empty string. -/
def joinCategories (cats : List (Option String)) : String :=
  String.intercalate ", " (cats.map (fun c => c.getD ""))

/-- Source `blockUnsafeContent` node: the single synthetic assistant message it
returns (the reducer appends it to `state.messages`). When `state.safety`
is absent, the optional chain renders as the string "undefined" in the
template literal. -/
def blockUnsafeContent (s : AgentState) : List BaseMessage :=
  [.ai (.str ("This conversation was flagged for unsafe content: " ++
      (match s.safety with
       | some o => joinCategories o.unsafe_categories
       | none => "undefined"))) []]

/-- The model lookup on line 89 of research_assistant.ts:
`models["gpt-3.5-turbo"]` — a fixed key; the commented-out alternative
`(config.configurable?.model as string)` is not active, so the config is
ignored. -/
def selectModel (_config : RunnableConfig) : String := "gpt-3.5-turbo"

/-- The model response inside `modelNode`: the selected client, with
tools bound, invoked on the system instructions followed by the full
message history. Always an assistant message. -/
def modelResponse (env : Env) (config : RunnableConfig) (s : AgentState) : BaseMessage :=
  let rc := env.chatOf (selectModel config)
      (.system (.str (instructions env.currentDate)) :: s.messages)
  .ai rc.1 rc.2

/-- Source `modelNode`: invoke the model, re-screen with role "Agent" over
history plus the response; on UNSAFE replace the response by a synthetic
assistant message (note the prefix "This response was flagged…", not
"This conversation was flagged…") and record the assessment; otherwise
append the response verbatim (no safety update). -/
def modelNode (env : Env) (config : RunnableConfig) (s : AgentState) : AgentState :=
  let response := modelResponse env config s
  let safetyOutput := env.guard.invoke "Agent" (s.messages ++ [response])
  if safetyOutput.safety_assessment = .UNSAFE then
    { messages := s.messages ++
        [.ai (.str ("This response was flagged for unsafe content: " ++
            joinCategories safetyOutput.unsafe_categories)) []],
      safety := some safetyOutput }
  else
    { s with messages := s.messages ++ [response] }

/-- Source `guardInputCondition`: `state.safety?.safety_assessment === "UNSAFE"
? "unsafe" : "safe"`. -/
def guardInputCondition (s : AgentState) : String :=
  if s.safety.map (fun o => o.safety_assessment) = some SafetyAssessment.UNSAFE
  then "unsafe" else "safe"

/-- Source `modelCondition`: read the last message; a non-assistant message (or
an empty history, where JS would fail reading `undefined.constructor`)
throws a TypeError, modelled as `.error`; otherwise "tools" exactly when
the assistant message carries tool calls. -/
def modelCondition (s : AgentState) : Except String String :=
  match s.messages.getLast? with
  | none => .error "TypeError: cannot read properties of undefined"
  | some m =>
    match m with
    | .ai _ tcs => if tcs.length > 0 then .ok "tools" else .ok "done"
    | _ => .error ("Expected AIMessage or AIMessageChunk, got " ++ m.constructorName)

/-- The prebuilt `ToolNode` (library code, not in src). Modelled from the
spec: for every tool call on the last assistant message, dispatch by name
with the call arguments and append one tool-result message per call, in
call order, each carrying the originating call id. -/
def toolNode (env : Env) (s : AgentState) : AgentState :=
  match s.messages.getLast? with
  | some (.ai _ tcs) =>
    { s with messages := s.messages ++ tcs.map (fun tc => .tool (env.toolExec tc) tc.id) }
  | _ => s

/-- The graph nodes (END is represented by the absence of a next node). -/
inductive Node
  | guard_input
  | block_unsafe_content
  | model
  | tools
deriving DecidableEq, Repr

/-- Run one node: `guard_input` writes the "User" assessment to state;
`block_unsafe_content` appends its synthetic message; `model` and
`tools` as above. Updates go through the `messages` concat reducer. -/
def runNode (env : Env) (config : RunnableConfig) : Node → AgentState → AgentState
  | .guard_input, s => { s with safety := some (env.guard.invoke "User" s.messages) }
  | .block_unsafe_content, s => { s with messages := s.messages ++ blockUnsafeContent s }
  | .model, s => modelNode env config s
  | .tools, s => toolNode env s

/-- The edges wired in `createResearchAssistant`: conditional edges from
`guard_input` (mapping "unsafe"/"safe") and from `model` (mapping
"tools"/"done" to `tools`/END), plus `block_unsafe_content → END` and
`tools → model`. `none` is END; a thrown condition error propagates. -/
def nodeTransition (n : Node) (s : AgentState) : Except String (Option Node) :=
  match n with
  | .guard_input =>
    .ok (some (if guardInputCondition s = "unsafe" then .block_unsafe_content else .model))
  | .block_unsafe_content => .ok none
  | .model => (modelCondition s).map (fun c => if c = "tools" then some .tools else none)
  | .tools => .ok (some .model)

/-- Execute the graph from a node: run the node, evaluate its outgoing
edge on the updated state, recurse. Fuel models the langgraph recursion
limit (exhaustion raises GraphRecursionError). The second component is
the trace of nodes that actually executed, in order. -/
def runGraph (env : Env) (config : RunnableConfig) :
    Nat → Node → AgentState → (Except String AgentState) × List Node
  | 0, _, _ => (.error "GraphRecursionError", [])
  | fuel + 1, n, s =>
    let s2 := runNode env config n s
    match nodeTransition n s2 with
    | .error e => (.error e, [n])
    | .ok none => (.ok s2, [n])
    | .ok (some n2) =>
      let r := runGraph env config fuel n2 s2
      (r.1, n :: r.2)

/-- One full turn: the `START → guard_input` edge enters the graph at
`guard_input` on the checkpointed messages extended with the request
input (the concat reducer applied to the prior thread state). -/
def runTurn (env : Env) (config : RunnableConfig) (fuel : Nat) (s0 : AgentState) :
    (Except String AgentState) × List Node :=
  runGraph env config fuel .guard_input s0

/-! ## service.ts — history mapping and the streaming generator -/

/-- The wire object the `/history` route builds per persisted message:
`{ type: message instanceof HumanMessage ? "human" : "ai", content:
message.content as string }`. The cast does not convert: the raw content
is whatever was stored. -/
structure HistoryWireMessage where
  type : ChatType
  content : MessageContent
deriving DecidableEq, Repr

/-- The `/history` per-message mapping: human messages keep type
"human"; EVERY other class (ai, tool, …) is labelled "ai". -/
def historyMessage (m : BaseMessage) : HistoryWireMessage :=
  { type := match m with
            | .human _ => ChatType.human
            | _ => ChatType.ai,
    content := m.content }

/-- The `/history` response body for a thread state: the persisted
message sequence mapped to the wire shape. -/
def historyMessages (s : AgentState) : List HistoryWireMessage :=
  s.messages.map historyMessage

/-- service.ts `removeToolCalls`: a string content passes through; an
array keeps its string items and the records whose `type` is not
"tool". -/
def removeToolCalls : MessageContent → MessageContent
  | .str s => .str s
  | .arr items =>
    .arr (items.filter (fun it =>
      match it with
      | .str _ => true
      | .obj ty _ => ty ≠ "tool"))

/-- One record of the langgraph `streamEvents` stream, restricted to the
fields `messageGenerator` reads: the event name, the
`metadata["langgraph_node"]` entry, the tags, `event.data.output.messages`
(absent when the node output carries no messages key) and
`event.data.chunk.content` for token deltas. -/
structure StreamEvent where
  event : String
  langgraph_node : Option String
  tags : List String
  output_messages : Option (List BaseMessage)
  chunk_content : MessageContent
deriving DecidableEq, Repr

/-- One server-sent item yielded by `messageGenerator`: a `message`,
`error` or `token` payload, or the final `[DONE]` sentinel. -/
inductive SSEvt
  | message (m : ChatMessage)
  | error (e : String)
  | token (s : String)
  | done
deriving DecidableEq, Repr

/-- The per-message body of the `on_chain_end` branch: convert via
`ChatMessage.fromLangChain` (a throw becomes an `error` item), stamp the
run id, and skip the echo of the request input — a HUMAN message whose
content equals `userInput.message` exactly. -/
def processMessage (input : StreamInput) (runId : String) (m : BaseMessage) : List SSEvt :=
  match ChatMessage.fromLangChain m with
  | .error e => [.error ("Error parsing message: " ++ e)]
  | .ok cm0 =>
    let cm := { cm0 with run_id := some runId }
    if cm.type = ChatType.human ∧ cm.content = input.message then []
    else [.message cm]

/-- The items `messageGenerator` yields for a single stream event:
message items only for `on_chain_end` of the nodes `model` or `tools`
whose output has a `messages` key; token items only for
`on_chat_model_stream` when tokens were requested and the event is not
tagged `llama_guard`, the chunk content (after `removeToolCalls`) is a
string, and that string does not trim to empty. -/
def processEvent (input : StreamInput) (runId : String) (ev : StreamEvent) : List SSEvt :=
  (if ev.event = "on_chain_end"
      ∧ (ev.langgraph_node = some "model" ∨ ev.langgraph_node = some "tools") then
    match ev.output_messages with
    | some msgs => (msgs.map (processMessage input runId)).flatten
    | none => []
  else [])
  ++
  (if ev.event = "on_chat_model_stream"
      ∧ input.stream_tokens = true
      ∧ ev.tags.contains "llama_guard" = false then
    match removeToolCalls ev.chunk_content with
    | .str s => if jsTrim s ≠ "" then [.token s] else []
    | .arr _ => []
  else [])

/-- service.ts `messageGenerator`: relay the graph event stream and close
with the `[DONE]` sentinel. The event list stands for the sequence
`researchAssistant.streamEvents` produced for the turn. -/
def messageGenerator (input : StreamInput) (runId : String) (events : List StreamEvent) :
    List SSEvt :=
  (events.map (processEvent input runId)).flatten ++ [.done]

/-! ## Execution lemmas -/

/-- After `guard_input`, the state carries the "User" assessment. -/
theorem runNode_guard_input (env : Env) (config : RunnableConfig) (s : AgentState) :
    runNode env config .guard_input s
      = { s with safety := some (env.guard.invoke "User" s.messages) } := rfl

/-- An UNSAFE "User" assessment routes the turn through
`block_unsafe_content` straight to END: the run appends exactly the one
synthetic block message and the trace is `[guard_input,
block_unsafe_content]`. -/
theorem runGraph_unsafe_eq (env : Env) (config : RunnableConfig) (f : Nat) (s0 : AgentState)
    (h : (env.guard.invoke "User" s0.messages).safety_assessment = .UNSAFE) :
    runGraph env config (f + 1 + 1) .guard_input s0
      = (.ok ⟨s0.messages ++
            [.ai (.str ("This conversation was flagged for unsafe content: " ++
              joinCategories (env.guard.invoke "User" s0.messages).unsafe_categories)) []],
          some (env.guard.invoke "User" s0.messages)⟩,
        [.guard_input, .block_unsafe_content]) := by
  simp [runGraph, runNode, nodeTransition, guardInputCondition, blockUnsafeContent, h]

/-- Whenever the `model` node is entered with fuel left, it executes:
`model` is in the trace. -/
theorem runGraph_model_mem (env : Env) (config : RunnableConfig) (f : Nat) (s : AgentState) :
    Node.model ∈ (runGraph env config (f + 1) .model s).2 := by
  cases htr : nodeTransition .model (runNode env config .model s) with
  | error e => simp [runGraph, htr]
  | ok o =>
    cases o with
    | none => simp [runGraph, htr]
    | some n2 => simp [runGraph, htr]

/-- One unfolding step of the run when the input screen routed "safe":
the turn continues at the `model` node on the updated state. -/
theorem runGraph_guard_safe_step (env : Env) (config : RunnableConfig) (f : Nat) (s0 : AgentState)
    (hcond : guardInputCondition (runNode env config .guard_input s0) = "safe") :
    runGraph env config (f + 1) .guard_input s0
      = ((runGraph env config f .model (runNode env config .guard_input s0)).1,
         .guard_input :: (runGraph env config f .model (runNode env config .guard_input s0)).2) := by
  rw [runGraph]
  simp [nodeTransition, hcond]

/-- A non-UNSAFE "User" assessment routes the turn to the `model` node,
which then executes. -/
theorem runGraph_safe_model_mem (env : Env) (config : RunnableConfig) (f : Nat) (s0 : AgentState)
    (h : (env.guard.invoke "User" s0.messages).safety_assessment ≠ .UNSAFE) :
    Node.model ∈ (runGraph env config (f + 1 + 1) .guard_input s0).2 := by
  have hcond : guardInputCondition (runNode env config .guard_input s0) = "safe" := by
    simp [guardInputCondition, runNode, h]
  rw [runGraph_guard_safe_step env config (f + 1) s0 hcond]
  exact List.mem_cons_of_mem _ (runGraph_model_mem env config f _)

/-- Both branches of `modelNode` append exactly one assistant message, so
the last message after the Model step is assistant-typed. -/
theorem modelNode_getLast (env : Env) (config : RunnableConfig) (s : AgentState) :
    ∃ c tcs, (modelNode env config s).messages.getLast? = some (.ai c tcs) := by
  simp only [modelNode]
  split
  · exact ⟨_, _, by rw [List.getLast?_concat]⟩
  · refine ⟨(env.chatOf (selectModel config)
        (.system (.str (instructions env.currentDate)) :: s.messages)).1,
      (env.chatOf (selectModel config)
        (.system (.str (instructions env.currentDate)) :: s.messages)).2, ?_⟩
    rw [List.getLast?_concat]
    rfl

/-- The defensive branch of `modelCondition` is unreachable right after
the Model step: the condition evaluates successfully. -/
theorem modelCondition_after_model (env : Env) (config : RunnableConfig) (s : AgentState) :
    ∃ c, modelCondition (runNode env config .model s) = .ok c := by
  obtain ⟨c, tcs, h⟩ := modelNode_getLast env config s
  have hrn : runNode env config .model s = modelNode env config s := rfl
  rw [hrn]
  unfold modelCondition
  rw [h]
  by_cases hl : tcs.length > 0
  · exact ⟨"tools", by simp [hl]⟩
  · exact ⟨"done", by simp [hl]⟩

/-- No item produced by `processMessage` is a human `message` item
echoing the request input. -/
theorem processMessage_no_echo (input : StreamInput) (runId : String) (m : BaseMessage)
    (cm : ChatMessage) (hmem : SSEvt.message cm ∈ processMessage input runId m) :
    cm.type = ChatType.human → cm.content ≠ input.message := by
  unfold processMessage at hmem
  cases hfl : ChatMessage.fromLangChain m with
  | error e => rw [hfl] at hmem; simp at hmem
  | ok cm0 =>
    rw [hfl] at hmem
    simp only at hmem
    split at hmem
    · simp at hmem
    · rename_i hcond
      simp only [List.mem_singleton, SSEvt.message.injEq] at hmem
      subst hmem
      intro ht hc
      exact hcond ⟨ht, hc⟩

/-- No item produced by `processEvent` is a human `message` item echoing
the request input. -/
theorem processEvent_no_echo (input : StreamInput) (runId : String) (ev : StreamEvent)
    (cm : ChatMessage) (hmem : SSEvt.message cm ∈ processEvent input runId ev) :
    cm.type = ChatType.human → cm.content ≠ input.message := by
  unfold processEvent at hmem
  rw [List.mem_append] at hmem
  rcases hmem with hmem | hmem
  · split at hmem
    · cases ho : ev.output_messages with
      | none => rw [ho] at hmem; simp at hmem
      | some msgs =>
        rw [ho] at hmem
        simp only [List.mem_flatten, List.mem_map] at hmem
        obtain ⟨l, ⟨m, _, rfl⟩, hcm⟩ := hmem
        exact processMessage_no_echo input runId m cm hcm
    · simp at hmem
  · split at hmem
    · split at hmem
      · split at hmem <;> simp at hmem
      · simp at hmem
    · simp at hmem

/-- An event not from the `model`/`tools` nodes whose chat-model deltas
(if any) carry the classifier tag contributes nothing to the stream. -/
theorem processEvent_eq_nil (input : StreamInput) (runId : String) (ev : StreamEvent)
    (h1 : ev.langgraph_node ≠ some "model") (h2 : ev.langgraph_node ≠ some "tools")
    (h3 : ev.event = "on_chat_model_stream" → ev.tags.contains "llama_guard" = true) :
    processEvent input runId ev = [] := by
  have hc1 : ¬(ev.event = "on_chain_end"
      ∧ (ev.langgraph_node = some "model" ∨ ev.langgraph_node = some "tools")) := by
    rintro ⟨_, hn | hn⟩
    · exact h1 hn
    · exact h2 hn
  have hc2 : ¬(ev.event = "on_chat_model_stream"
      ∧ input.stream_tokens = true
      ∧ ev.tags.contains "llama_guard" = false) := by
    rintro ⟨he, _, hc⟩
    rw [h3 he] at hc
    exact absurd hc (by decide)
  unfold processEvent
  rw [if_neg hc1, if_neg hc2]
  rfl

/-- Flatten-of-map is empty when every element maps to the empty list. -/
theorem flatten_map_eq_nil {α β : Type} (g : α → List β) (l : List α)
    (h : ∀ x ∈ l, g x = []) : (l.map g).flatten = [] := by
  induction l with
  | nil => rfl
  | cons a l ih =>
    simp only [List.map_cons, List.flatten_cons]
    rw [h a (List.mem_cons_self a l), ih (fun x hx => h x (List.mem_cons_of_mem a hx))]
    rfl

/-! ## Concrete fixtures for witnesses and counterexamples -/

/-- A config as `parseInput` builds it for a request with defaults. -/
def cfgW : RunnableConfig := { thread_id := "thread-1", model := "gpt-4", runId := "run-1" }

/-- A configured classifier whose completion always reads
`unsafe` / `S1`. -/
def guardAlwaysUnsafe : LlamaGuard := { model := some (fun _ => "unsafe\nS1") }

/-- A configured classifier whose completion always reads `safe`. -/
def guardAlwaysSafe : LlamaGuard := { model := some (fun _ => "safe") }

/-- The unconfigured classifier (`GROQ_API_KEY` unset). -/
def guardOff : LlamaGuard := { model := none }

/-- A chat client oracle answering plainly with no tool calls. -/
def chatPlain : String → List BaseMessage → MessageContent × List ToolCall :=
  fun _ _ => (.str "hello there", [])

/-- Environment of a turn whose input screening flags UNSAFE. -/
def envUnsafeInput : Env :=
  { guard := guardAlwaysUnsafe, chatOf := chatPlain,
    toolExec := fun _ => .str "", currentDate := "January 1, 2026" }

/-- Environment of a turn where both screenings return SAFE. -/
def envAllSafe : Env :=
  { guard := guardAlwaysSafe, chatOf := chatPlain,
    toolExec := fun _ => .str "", currentDate := "January 1, 2026" }

/-- C1: for every turn, an UNSAFE input assessment appends exactly one
synthetic block message to the persisted state and the Model step never
executes (its node is absent from the execution trace); any non-UNSAFE
assessment (SAFE or ERROR) makes the Model step execute at least once. -/
theorem c1_guard_input_routing (env : Env) (config : RunnableConfig) (s0 : AgentState)
    (fuel : Nat) (hfuel : 2 ≤ fuel) :
    ((env.guard.invoke "User" s0.messages).safety_assessment = .UNSAFE →
      runTurn env config fuel s0
        = (.ok ⟨s0.messages ++
              [.ai (.str ("This conversation was flagged for unsafe content: " ++
                joinCategories (env.guard.invoke "User" s0.messages).unsafe_categories)) []],
            some (env.guard.invoke "User" s0.messages)⟩,
          [.guard_input, .block_unsafe_content])
      ∧ Node.model ∉ (runTurn env config fuel s0).2)
  ∧ ((env.guard.invoke "User" s0.messages).safety_assessment ≠ .UNSAFE →
      Node.model ∈ (runTurn env config fuel s0).2) := by
  obtain ⟨f, rfl⟩ : ∃ f, fuel = f + 1 + 1 := ⟨fuel - 2, by omega⟩
  constructor
  · intro h
    have heq := runGraph_unsafe_eq env config f s0 h
    refine ⟨heq, ?_⟩
    rw [runTurn, heq]
    simp
  · intro h
    exact runGraph_safe_model_mem env config f s0 h

/-- C1 witness: a concrete UNSAFE-input turn, evaluated. -/
theorem c1_guard_input_routing_witness :
    runTurn envUnsafeInput cfgW 5 ⟨[.human (.str "hi")], none⟩
      = (.ok ⟨[.human (.str "hi"),
            .ai (.str "This conversation was flagged for unsafe content: Violent Crimes") []],
          some ⟨.UNSAFE, [some "Violent Crimes"]⟩⟩,
        [.guard_input, .block_unsafe_content])
  ∧ Node.model ∉ (runTurn envUnsafeInput cfgW 5 ⟨[.human (.str "hi")], none⟩).2 := by
  have h := (c1_guard_input_routing envUnsafeInput cfgW ⟨[.human (.str "hi")], none⟩ 5
      (by decide)).1 (by decide)
  exact ⟨h.1.trans (by decide), h.2⟩

/-- C7: with no classifier credential configured, every `invoke` returns
SAFE with empty categories without sending any classification request,
so input screening always routes the turn to the Model step, which then
runs. -/
theorem c7_fail_open (g : LlamaGuard) (hg : g.model = none) :
    (∀ role msgs, g.invoke role msgs = ⟨.SAFE, []⟩)
  ∧ g.requestsPerInvoke = 0
  ∧ (∀ env config s0, env.guard = g →
      guardInputCondition (runNode env config .guard_input s0) = "safe")
  ∧ (∀ env config s0 fuel, env.guard = g → 2 ≤ fuel →
      Node.model ∈ (runTurn env config fuel s0).2) := by
  have hinv : ∀ role msgs, g.invoke role msgs = ⟨.SAFE, []⟩ := by
    intro role msgs
    simp [LlamaGuard.invoke, hg]
  refine ⟨hinv, ?_, ?_, ?_⟩
  · simp [LlamaGuard.requestsPerInvoke, hg]
  · intro env config s0 henv
    simp [guardInputCondition, runNode, henv, hinv]
  · intro env config s0 fuel henv hfuel
    obtain ⟨f, rfl⟩ : ∃ f, fuel = f + 1 + 1 := ⟨fuel - 2, by omega⟩
    apply runGraph_safe_model_mem
    rw [henv, hinv]
    decide

/-- C7 witness: the unconfigured classifier, evaluated on a concrete
call and a concrete turn. -/
theorem c7_fail_open_witness :
    guardOff.invoke "User" [.human (.str "hi")] = ⟨.SAFE, []⟩
  ∧ guardOff.requestsPerInvoke = 0
  ∧ Node.model ∈ (runTurn ⟨guardOff, chatPlain, fun _ => .str "", "January 1, 2026"⟩
      cfgW 5 ⟨[.human (.str "hi")], none⟩).2 := by
  have h := c7_fail_open guardOff rfl
  exact ⟨h.1 "User" [.human (.str "hi")], h.2.1,
    h.2.2.2 ⟨guardOff, chatPlain, fun _ => .str "", "January 1, 2026"⟩ cfgW
      ⟨[.human (.str "hi")], none⟩ 5 rfl (by decide)⟩

/-- C8: the Model step transition predicate returns "tools" exactly when
the last message is an assistant message carrying tool calls and "done"
for an assistant message without; any other last message (or an empty
history) makes it throw; and right after the Model step the predicate
always succeeds, so the throwing branch is unreachable in the graph. -/
theorem c8_model_condition (s : AgentState) (env : Env) (config : RunnableConfig) :
    (∀ c tcs, s.messages.getLast? = some (.ai c tcs) →
      modelCondition s = .ok (if tcs.length > 0 then "tools" else "done"))
  ∧ (∀ m, s.messages.getLast? = some m → (∀ c tcs, m ≠ .ai c tcs) →
      ∃ e, modelCondition s = .error e)
  ∧ (∃ c, modelCondition (runNode env config .model s) = .ok c) := by
  refine ⟨?_, ?_, modelCondition_after_model env config s⟩
  · intro c tcs h
    unfold modelCondition
    rw [h]
    by_cases hl : tcs.length > 0 <;> simp [hl]
  · intro m h hne
    cases m with
    | ai c tcs => exact absurd rfl (hne c tcs)
    | human c => exact ⟨_, by unfold modelCondition; rw [h]⟩
    | tool c tcid => exact ⟨_, by unfold modelCondition; rw [h]⟩
    | system c => exact ⟨_, by unfold modelCondition; rw [h]⟩

/-- C8 witness: the predicate evaluated on concrete assistant messages
with and without tool calls. -/
theorem c8_model_condition_witness :
    modelCondition ⟨[.ai (.str "4") []], none⟩ = .ok "done"
  ∧ modelCondition ⟨[.ai (.str "") [⟨"calculator", "2+2", "call_1"⟩]], none⟩ = .ok "tools" := by
  constructor
  · have h := (c8_model_condition ⟨[.ai (.str "4") []], none⟩ envAllSafe cfgW).1
      (.str "4") [] (by decide)
    simpa using h
  · have h := (c8_model_condition ⟨[.ai (.str "") [⟨"calculator", "2+2", "call_1"⟩]], none⟩
      envAllSafe cfgW).1 (.str "") [⟨"calculator", "2+2", "call_1"⟩] (by decide)
    simpa using h

/-- Environment where the post-response ("Agent") screening flags the
model reply UNSAFE with category S1. -/
def envAgentUnsafe : Env :=
  { guard := guardAlwaysUnsafe,
    chatOf := fun _ _ => (.str "a model reply", []),
    toolExec := fun _ => .str "", currentDate := "January 1, 2026" }

/-- C2 counterexample: on an Agent-side UNSAFE verdict the Model step
appends one synthetic message, but its text reads "This response was
flagged for unsafe content: …" — NOT the BlockUnsafe format "This
conversation was flagged for unsafe content: …" that the claim
requires. -/
theorem c2_counterexample :
    (modelNode envAgentUnsafe cfgW ⟨[.human (.str "hello")], none⟩).messages
      = [.human (.str "hello"),
         .ai (.str "This response was flagged for unsafe content: Violent Crimes") []]
  ∧ "This response was flagged for unsafe content: Violent Crimes"
      ≠ "This conversation was flagged for unsafe content: " ++
          joinCategories [some "Violent Crimes"] := by
  constructor
  · decide
  · decide

/-- C2 amended: if the "Agent" screening of history plus the model
response is UNSAFE, the true response is never appended; the new state is
the old messages plus exactly one synthetic assistant message whose text
is "This response was flagged for unsafe content: " followed by the
comma-joined category names, and the assessment is recorded. -/
theorem c2_agent_unsafe_block (env : Env) (config : RunnableConfig) (s : AgentState)
    (h : (env.guard.invoke "Agent"
        (s.messages ++ [modelResponse env config s])).safety_assessment = .UNSAFE) :
    modelNode env config s
      = ⟨s.messages ++
          [.ai (.str ("This response was flagged for unsafe content: " ++
            joinCategories (env.guard.invoke "Agent"
              (s.messages ++ [modelResponse env config s])).unsafe_categories)) []],
        some (env.guard.invoke "Agent" (s.messages ++ [modelResponse env config s]))⟩ := by
  simp [modelNode, h]

/-- C2 witness: the amended statement evaluated on a concrete
environment. -/
theorem c2_agent_unsafe_block_witness :
    modelNode envAgentUnsafe cfgW ⟨[.human (.str "hello")], none⟩
      = ⟨[.human (.str "hello"),
          .ai (.str "This response was flagged for unsafe content: Violent Crimes") []],
        some ⟨.UNSAFE, [some "Violent Crimes"]⟩⟩ := by
  have h := c2_agent_unsafe_block envAgentUnsafe cfgW ⟨[.human (.str "hello")], none⟩
    (by decide)
  exact h.trans (by decide)

/-- C3 counterexample: a response whose FIRST LINE is exactly `safe` but
which has a second line parses to ERROR, not SAFE — the code compares the
whole output against "safe", not the first line. -/
theorem c3_counterexample :
    (jsSplit '\n' "safe\nextra").head? = some "safe"
  ∧ parseLlamaGuardOutput "safe\nextra" = ⟨.ERROR, []⟩
  ∧ parseLlamaGuardOutput "safe\nextra" ≠ ⟨.SAFE, []⟩ := by
  refine ⟨by decide, by decide, by decide⟩

/-- C3 amended: parsing yields SAFE (with empty categories) exactly when
the WHOLE response equals `safe`; a response consisting of exactly the
line `unsafe` followed by one line of comma-separated codes yields UNSAFE
with each trimmed code looked up in the fixed 14-entry taxonomy (codes in
the taxonomy give their label; unknown codes give `undefined`, see C4). -/
theorem c3_parse_contract (output l2 : String) :
    (parseLlamaGuardOutput output = ⟨.SAFE, []⟩ ↔ output = "safe")
  ∧ (jsSplit '\n' output = ["unsafe", l2] →
      parseLlamaGuardOutput output
        = ⟨.UNSAFE, (jsSplit ',' l2).map (fun c => unsafeContentCategories (jsTrim c))⟩)
  ∧ unsafeContentCategoriesList.length = 14 := by
  refine ⟨⟨?_, ?_⟩, ?_, by decide⟩
  · intro hp
    by_contra ho
    unfold parseLlamaGuardOutput at hp
    rw [if_neg ho] at hp
    split at hp
    · split at hp <;> simp_all
    · simp_all
  · intro ho
    subst ho
    decide
  · intro hsp
    have ho : output ≠ "safe" := by
      intro heq
      subst heq
      rw [show jsSplit '\n' "safe" = ["safe"] from by decide] at hsp
      simp at hsp
    unfold parseLlamaGuardOutput
    rw [if_neg ho, hsp]
    simp

/-- C3 witness: the amended contract applied at a concrete two-line
unsafe response with spaced codes. -/
theorem c3_parse_contract_witness :
    parseLlamaGuardOutput "unsafe\nS1, S2"
      = ⟨.UNSAFE, [some "Violent Crimes", some "Non-Violent Crimes"]⟩ := by
  have h := (c3_parse_contract "unsafe\nS1, S2" "S1, S2").2.1 (by decide)
  exact h.trans (by decide)

/-- C4: evaluation at the failing input. A two-line `unsafe` response
containing a category code outside the taxonomy parses to UNSAFE with an
`undefined` (`none`) entry — NOT to the ERROR the claim (and the dead
try/catch in the source) specify; no exception occurs. -/
theorem c4_unmapped_category_eval :
    parseLlamaGuardOutput "unsafe\nS99" = ⟨.UNSAFE, [none]⟩
  ∧ (parseLlamaGuardOutput "unsafe\nS99").safety_assessment ≠ .ERROR
  ∧ parseLlamaGuardOutput "" = ⟨.ERROR, []⟩
  ∧ parseLlamaGuardOutput "unsafe" = ⟨.ERROR, []⟩
  ∧ parseLlamaGuardOutput "unsafe\nS1\nS2" = ⟨.ERROR, []⟩
  ∧ parseLlamaGuardOutput "bogus\nS1" = ⟨.ERROR, []⟩ := by
  refine ⟨by decide, by decide, by decide, by decide, by decide, by decide⟩

/-- A stream request with token streaming switched on. -/
def streamInputW : StreamInput :=
  { message := "tell me something harmful", model := none, thread_id := none,
    stream_tokens := true }

/-- The event sequence `streamEvents` produces for a turn whose input
screening flags UNSAFE: chain events for the `guard_input` and
`block_unsafe_content` nodes (the only nodes that run, per C1), the
classifier's own chat-model delta tagged `llama_guard`, and the top-level
graph end (no `langgraph_node` metadata). The block message appears only
in the outputs of `block_unsafe_content` and of the top-level chain. -/
def unsafeTurnEvents : List StreamEvent :=
  [⟨"on_chat_model_stream", some "guard_input", ["llama_guard"], none, .str "unsafe"⟩,
   ⟨"on_chain_end", some "guard_input", [], none, .str ""⟩,
   ⟨"on_chain_end", some "block_unsafe_content", [],
     some [.ai (.str "This conversation was flagged for unsafe content: Violent Crimes") []],
     .str ""⟩,
   ⟨"on_chain_end", none, [],
     some [.human (.str "tell me something harmful"),
           .ai (.str "This conversation was flagged for unsafe content: Violent Crimes") []],
     .str ""⟩]

/-- C5 counterexample: for a concrete UNSAFE-input turn the generator
emits ONLY the end-of-stream sentinel — no `message` event at all (the
message filter only passes the `model` and `tools` nodes, and
`block_unsafe_content` is neither), contradicting the claimed single
`ai` message event. -/
theorem c5_counterexample :
    messageGenerator streamInputW "run-1" unsafeTurnEvents = [SSEvt.done] := by
  decide

/-- C5 amended: for every streamed turn whose input screening flags
UNSAFE — so that (per C1) no event carries the `model` or `tools` node
metadata and every chat-model delta is the classifier's own, tagged
`llama_guard` — the emitted sequence is exactly the end-of-stream
sentinel: zero `message` events and zero `token` events; in particular
the synthetic block message is never relayed. -/
theorem c5_unsafe_stream (input : StreamInput) (runId : String) (events : List StreamEvent)
    (h : ∀ ev ∈ events,
      (ev.langgraph_node ≠ some "model" ∧ ev.langgraph_node ≠ some "tools")
      ∧ (ev.event = "on_chat_model_stream" → ev.tags.contains "llama_guard" = true)) :
    messageGenerator input runId events = [SSEvt.done] := by
  unfold messageGenerator
  rw [flatten_map_eq_nil]
  · rfl
  · intro ev hev
    exact processEvent_eq_nil input runId ev (h ev hev).1.1 (h ev hev).1.2 (h ev hev).2

/-- C5 witness: the amended statement applied to a concrete UNSAFE-turn
event sequence (without the top-level end event). -/
theorem c5_unsafe_stream_witness :
    messageGenerator streamInputW "run-2"
      [⟨"on_chat_model_stream", some "guard_input", ["llama_guard"], none, .str "unsafe"⟩,
       ⟨"on_chain_end", some "block_unsafe_content", [],
         some [.ai (.str "This conversation was flagged for unsafe content: Violent Crimes") []],
         .str ""⟩]
      = [SSEvt.done] := by
  apply c5_unsafe_stream
  decide

/-- Environment of the calculator scenario: screenings off (fail-open),
the model requests the calculator once and then answers. -/
def envCalc : Env :=
  { guard := guardOff,
    chatOf := fun _ msgs =>
      if msgs.any (fun m =>
          match m with
          | .tool _ _ => true
          | _ => false)
      then (.str "2 + 2 = 4", [])
      else (.str "", [⟨"calculator", "2+2", "call_1"⟩]),
    toolExec := fun _ => .str "4",
    currentDate := "January 1, 2026" }

/-- The persisted state after the calculator turn. -/
def calcFinalState : AgentState :=
  ⟨[.human (.str "What is 2+2?"),
    .ai (.str "") [⟨"calculator", "2+2", "call_1"⟩],
    .tool (.str "4") "call_1",
    .ai (.str "2 + 2 = 4") []],
   some ⟨.SAFE, []⟩⟩

/-- C6 counterexample: a tool message appended during a turn reads back
through `/history` with wire type `ai`, not `tool` — the route labels
every non-human message "ai". -/
theorem c6_counterexample :
    (runTurn envCalc cfgW 10 ⟨[.human (.str "What is 2+2?")], none⟩).1 = .ok calcFinalState
  ∧ calcFinalState.messages[2]? = some (.tool (.str "4") "call_1")
  ∧ (historyMessages calcFinalState)[2]? = some ⟨ChatType.ai, .str "4"⟩
  ∧ ChatType.ai ≠ ChatType.tool := by
  refine ⟨by decide, by decide, by decide, by decide⟩

/-- C6 amended: reading a persisted message back through `/history`
always preserves the content exactly; the wire type equals the message's
type for human and ai messages, but a tool message reads back as "ai". -/
theorem c6_history_roundtrip (m : BaseMessage) :
    (historyMessage m).content = m.content
  ∧ ((historyMessage m).type = ChatType.human ↔ m.getType = "human")
  ∧ (m.getType = "ai" → (historyMessage m).type = ChatType.ai)
  ∧ (m.getType = "tool" → (historyMessage m).type = ChatType.ai) := by
  cases m <;> simp [historyMessage, BaseMessage.content, BaseMessage.getType]

/-- C6 witness: the amended statement evaluated on a concrete human and
a concrete tool message. -/
theorem c6_history_roundtrip_witness :
    (historyMessage (.human (.str "What is 2+2?"))).content
        = (BaseMessage.human (.str "What is 2+2?")).content
  ∧ (historyMessage (.human (.str "What is 2+2?"))).type = ChatType.human
  ∧ (historyMessage (.tool (.str "4") "call_1")).type = ChatType.ai := by
  refine ⟨(c6_history_roundtrip (.human (.str "What is 2+2?"))).1,
    (c6_history_roundtrip (.human (.str "What is 2+2?"))).2.1.mpr (by decide),
    (c6_history_roundtrip (.tool (.str "4") "call_1")).2.2.2 (by decide)⟩

/-- C9: two requests that differ only in the `model` field produce the
same Model-step behavior — the step looks up the fixed key
"gpt-3.5-turbo" in the model registry no matter what the request (and
hence `config.configurable.model`) says. -/
theorem c9_fixed_model (env : Env) (u1 u2 : UserInput) (runId freshTid : String)
    (s : AgentState)
    (_hmsg : u1.message = u2.message) (_hthr : u1.thread_id = u2.thread_id) :
    selectModel (parseInput runId freshTid u1).config = "gpt-3.5-turbo"
  ∧ selectModel (parseInput runId freshTid u1).config
      = selectModel (parseInput runId freshTid u2).config
  ∧ modelNode env (parseInput runId freshTid u1).config s
      = modelNode env (parseInput runId freshTid u2).config s := by
  exact ⟨rfl, rfl, rfl⟩

/-- C9 witness: two concrete requests differing only in the requested
model run the Model step identically. -/
theorem c9_fixed_model_witness :
    modelNode envAllSafe (parseInput "run-1" "tid-1"
        ⟨"hello", some "gpt-4", some "thread-9"⟩).config ⟨[.human (.str "hello")], none⟩
      = modelNode envAllSafe (parseInput "run-1" "tid-1"
        ⟨"hello", some "gpt-3.5-turbo", some "thread-9"⟩).config ⟨[.human (.str "hello")], none⟩ := by
  exact (c9_fixed_model envAllSafe ⟨"hello", some "gpt-4", some "thread-9"⟩
    ⟨"hello", some "gpt-3.5-turbo", some "thread-9"⟩ "run-1" "tid-1"
    ⟨[.human (.str "hello")], none⟩ rfl rfl).2.2

/-- C10: echo suppression is by exact string equality of content — no
emitted `message` item is a human message whose content equals the
request's `message`; and a human message in a `model`/`tools` node output
whose content differs from the request string IS emitted. -/
theorem c10_echo_suppression (input : StreamInput) (runId : String) :
    (∀ events cm, SSEvt.message cm ∈ messageGenerator input runId events →
      cm.type = ChatType.human → cm.content ≠ input.message)
  ∧ (∀ c node, (node = "model" ∨ node = "tools") → c ≠ input.message →
      messageGenerator input runId
        [⟨"on_chain_end", some node, [], some [.human (.str c)], .str ""⟩]
        = [.message ⟨ChatType.human, c, [], none, some runId⟩, .done]) := by
  constructor
  · intro events cm hmem
    unfold messageGenerator at hmem
    rw [List.mem_append] at hmem
    rcases hmem with hmem | hmem
    · rw [List.mem_flatten] at hmem
      obtain ⟨l, hl, hcm⟩ := hmem
      rw [List.mem_map] at hl
      obtain ⟨ev, hev, rfl⟩ := hl
      exact processEvent_no_echo input runId ev cm hcm
    · simp at hmem
  · intro c node hnode hc
    rcases hnode with rfl | rfl <;>
      simp [messageGenerator, processEvent, processMessage, ChatMessage.fromLangChain,
        convertMessageContentToString, hc]

/-- C10 witness: with request message "hi", a human output message "hi"
is suppressed and a human output message "bye" is emitted. -/
theorem c10_echo_suppression_witness :
    messageGenerator ⟨"hi", none, none, false⟩ "run-1"
      [⟨"on_chain_end", some "model", [], some [.human (.str "bye")], .str ""⟩]
      = [.message ⟨ChatType.human, "bye", [], none, some "run-1"⟩, .done]
  ∧ ∀ cm, SSEvt.message cm ∈ messageGenerator ⟨"hi", none, none, false⟩ "run-1"
      [⟨"on_chain_end", some "model", [], some [.human (.str "hi")], .str ""⟩] →
      cm.type = ChatType.human → cm.content ≠ "hi" := by
  constructor
  · exact (c10_echo_suppression ⟨"hi", none, none, false⟩ "run-1").2 "bye" "model"
      (Or.inl rfl) (by decide)
  · intro cm hmem
    exact (c10_echo_suppression ⟨"hi", none, none, false⟩ "run-1").1 _ cm hmem
